import Mathlib

/-!
Shallow embedding of `cpp_result` (include/result.hpp), a Rust-like
`Result<T, E>` container for C++17, together with proofs of its
specified contract.

Modelling conventions:
- The general form `Result<T, E>` stores a union of one `T` and one `E`
  gated by the boolean discriminant `is_ok_`; in value semantics this is
  exactly a sum type, so it is embedded as an inductive with constructors
  `Ok` and `Err` (the factory names from the source).
- Operations that may abort the process (`unwrap`, `expect`, ...) return
  an `AbortOr` value: `abort msg` stands for "write `msg` and a newline to
  stderr, then call `std::abort()`", `ret v` for a normal return of `v`.
- Callables whose invocation count matters (`TRY`'s operand, `and_then`'s
  continuation, `unwrap_or_else`'s supplier) are embedded effectfully as
  state transformers `σ → α × σ`; running one is one invocation.
- `Result<void, E>` is embedded as the structure `ResultVoid` with the
  member layout of the source class: a plain (always present) `E error_`
  field next to `bool is_ok_` — the specialization does not use a union.
  C++ default-initialization of `error_` is modelled with `Inhabited`.
- Copy/move special members are embedded as functions from the source
  object to the constructed value; the assignment operators additionally
  take a flag `same` standing for the pointer test `this == &other` and
  return the number of `destroy()` (destroy + reconstruct) cycles run.
-/

namespace CppResult

/-- `Result<T, E>`: holds either a value (`Ok`) or an error (`Err`).
The class stores `union Data { T value; E error; } data_` plus
`bool is_ok_`; exactly one union member is live, identified by the
discriminant, so the value-level state space is this sum type. The two
constructors are the factories `Result::Ok(T)` / `Result::Err(E)`. -/
inductive Result (T E : Type) : Type where
  | Ok : T → Result T E
  | Err : E → Result T E
deriving DecidableEq

/-- Outcome of an operation that may abort the process via
`EXPECT_OR_ABORT(cond, msg)`: either the call returns a value (`ret`),
or the message is emitted to the standard error stream followed by a
newline and `std::abort()` terminates the process (`abort msg`). -/
inductive AbortOr (α : Type) : Type where
  | abort : String → AbortOr α
  | ret : α → AbortOr α
deriving DecidableEq

namespace Result

variable {T E U V : Type}

/-- `is_ok()`: returns the discriminant `is_ok_`. -/
def is_ok : Result T E → Bool
  | .Ok _ => true
  | .Err _ => false

/-- `is_err()`: returns `!is_ok_`. -/
def is_err (r : Result T E) : Bool := !r.is_ok

/-- `unwrap()`: `EXPECT_OR_ABORT(is_ok_, "unwrap called on Result::Err()")`,
then returns `data_.value` (by reference). -/
def unwrap : Result T E → AbortOr T
  | .Ok v => .ret v
  | .Err _ => .abort "unwrap called on Result::Err()"

/-- `unwrap_err()`: `EXPECT_OR_ABORT(!is_ok_, "unwrap_err called on Result::Ok()")`,
then returns `data_.error` (by reference). -/
def unwrap_err : Result T E → AbortOr E
  | .Ok _ => .abort "unwrap_err called on Result::Ok()"
  | .Err e => .ret e

/-- `expect(msg)`: `EXPECT_OR_ABORT(is_ok_, msg)`, then returns
`data_.value`. -/
def expect : Result T E → String → AbortOr T
  | .Ok v, _ => .ret v
  | .Err _, msg => .abort msg

/-- `expect_err(msg)`: `EXPECT_OR_ABORT(!is_ok_, msg)`, then returns
`data_.error`. -/
def expect_err : Result T E → String → AbortOr E
  | .Ok _, msg => .abort msg
  | .Err e, _ => .ret e

/-- `unwrap_or(default_value)`: `is_ok_ ? data_.value : default_value`. -/
def unwrap_or : Result T E → T → T
  | .Ok v, _ => v
  | .Err _, default_value => default_value

/-- `unwrap_or_else(func)`: `is_ok_ ? data_.value : func()`, with the
zero-argument supplier `func` embedded effectfully: on the success path it
is not run, on the failure path it is run once and its result returned. -/
def unwrap_or_elseE {σ : Type} : Result T E → (σ → T × σ) → σ → T × σ
  | .Ok v, _, s => (v, s)
  | .Err _, func, s => func s

/-- `unwrap_or_default()`: `is_ok_ ? data_.value : T{}`; the
value-initialized `T{}` of the default-constructible `T` is `default`. -/
def unwrap_or_default [Inhabited T] : Result T E → T
  | .Ok v => v
  | .Err _ => default

/-- `map(func)`: if `is_ok_`, `Result<U,E>::Ok(func(data_.value))`, else
`Result<U,E>::Err(data_.error)`. -/
def map : Result T E → (T → U) → Result U E
  | .Ok v, func => .Ok (func v)
  | .Err e, _ => .Err e

/-- `and_then(func)`: if `is_ok_`, returns `func(data_.value)` (itself a
result), else `R::Err(data_.error)`. -/
def and_then : Result T E → (T → Result U E) → Result U E
  | .Ok v, func => func v
  | .Err e, _ => .Err e

/-- `and_then(func)` with the continuation embedded effectfully: on the
failure path `func` is not run (the state is untouched), on the success
path it is run once on the payload. -/
def and_thenE {σ : Type} : Result T E → (T → σ → Result U E × σ) → σ → Result U E × σ
  | .Ok v, func, s => func v s
  | .Err e, _, s => (.Err e, s)

/-- `and_(res)`: `if (is_ok_) return res; return Result<T,E>::Err(data_.error);`. -/
def and_ : Result T E → Result T E → Result T E
  | .Ok _, res => res
  | .Err e, _ => .Err e

/-- `or_(res)`: `if (!is_ok_) return res; return *this;`. -/
def or_ (r : Result T E) (res : Result T E) : Result T E :=
  if !r.is_ok then res else r

/-- `or_else(op)`: `if (!is_ok_) return op(); return *this;` — note the
source invokes `op` with no arguments. -/
def or_else (r : Result T E) (op : Unit → Result T E) : Result T E :=
  if !r.is_ok then op () else r

/-- `flatten()` on `Result<Result<U,E>, E>`: if `is_ok_`, returns the inner
result `data_.value` as-is, else `Inner::Err(data_.error)`. -/
def flatten : Result (Result U E) E → Result U E
  | .Ok inner => inner
  | .Err e => .Err e

/-- `TRY(expr)` inside a function returning `Result T E`: binds
`__res = (expr)` once (the operand is embedded effectfully, so this is one
state transition), then, if `__res.is_err()`, early-returns
`__res_type::Err(__res.unwrap_err())` — a fresh failure container of
`__res_type = std::decay_t<decltype(__res)>`, which the `return` statement
forces to be the enclosing function's return type — and otherwise the
statement expression yields `std::move(__res.unwrap())`. `Except.error`
is the early return, `Except.ok` the inline value. -/
def tryMacroE {σ : Type} (expr : σ → Result T E × σ) (s : σ) :
    Except (Result T E) T × σ :=
  let res := expr s
  match res.1 with
  | .Err e => (.error (Result.Err e), res.2)
  | .Ok v => (.ok v, res.2)

/-- `Result(const Result& other)` (copy constructor): copies `is_ok_` and
copy-constructs the live union member from `other`'s. -/
def copyCtor : Result T E → Result T E
  | .Ok v => .Ok v
  | .Err e => .Err e

/-- `Result(Result&& other)` (move constructor): copies `is_ok_` and
move-constructs the live union member from `other`'s. -/
def moveCtor : Result T E → Result T E
  | .Ok v => .Ok v
  | .Err e => .Err e

/-- `operator=(const Result& other)`: guarded by `this != &other`
(`same` models `this == &other`); if distinct, runs `destroy()` on the
current payload then copies discriminant and payload from `other`;
returns the object's new state and the number of destroy+reconstruct
cycles performed. -/
def copyAssign (self other : Result T E) (same : Bool) : Result T E × Nat :=
  if !same then (copyCtor other, 1) else (self, 0)

/-- `operator=(Result&& other)`: same guard and structure as copy
assignment, with the payload move-constructed from `other`'s. -/
def moveAssign (self other : Result T E) (same : Bool) : Result T E × Nat :=
  if !same then (moveCtor other, 1) else (self, 0)

end Result

/-- `Result<void, E>`: the specialization for value-less success. Its
member layout is `E error_; bool is_ok_;` — a plain, always-present `E`
member, not a union, so every container of this form holds an `E`
object regardless of state. -/
structure ResultVoid (E : Type) : Type where
  error_ : E
  is_ok_ : Bool
deriving DecidableEq

namespace ResultVoid

variable {E : Type}

/-- `Result<void,E>::Ok()`: the private default constructor
`Result() noexcept : is_ok_(true) {}` sets the discriminant and leaves
`error_` default-initialized — `E`'s default constructor runs (so `E`
must be default-constructible, modelled by `Inhabited E`, and a default
`E` object is created in the success container). -/
def Ok [Inhabited E] : ResultVoid E := ⟨default, true⟩

/-- `Result<void,E>::Err(err)`: `error_` is default-initialized and then
`new (&error_) E(std::move(err))` overwrites it, so the stored error is
`err`. -/
def Err (err : E) : ResultVoid E := ⟨err, false⟩

/-- `is_ok()`: returns `is_ok_`. -/
def is_ok (r : ResultVoid E) : Bool := r.is_ok_

/-- `is_err()`: returns `!is_ok_`. -/
def is_err (r : ResultVoid E) : Bool := !r.is_ok_

/-- `Result(const Result& other)` (copy constructor): copies `is_ok_`;
`error_` is default-initialized and then, only when `other` is a failure,
copy-constructed over from `other.error_`. -/
def copyCtor [Inhabited E] (other : ResultVoid E) : ResultVoid E :=
  ⟨if !other.is_ok_ then other.error_ else default, other.is_ok_⟩

/-- `Result(Result&& other)` (move constructor): same structure, with the
error move-constructed when `other` is a failure. -/
def moveCtor [Inhabited E] (other : ResultVoid E) : ResultVoid E :=
  ⟨if !other.is_ok_ then other.error_ else default, other.is_ok_⟩

/-- `operator=(const Result& other)`: guarded by `this != &other`
(`same` models `this == &other`); if distinct, copies `is_ok_` and, only
when `other` is a failure, placement-copies `other.error_` (when `other`
is a success the old `error_` contents are left in place). -/
def copyAssign (self other : ResultVoid E) (same : Bool) : ResultVoid E :=
  if !same then
    ⟨if !other.is_ok_ then other.error_ else self.error_, other.is_ok_⟩
  else self

/-- `operator=(Result&& other)`: same guard and structure as copy
assignment, with the error move-constructed from `other`'s. -/
def moveAssign (self other : ResultVoid E) (same : Bool) : ResultVoid E :=
  if !same then
    ⟨if !other.is_ok_ then other.error_ else self.error_, other.is_ok_⟩
  else self

end ResultVoid

/-- C1: The TRY expression form, used inside a function whose return type
is the (forcibly identical, hence failure-type-sharing) result type of the
evaluated expression, evaluates the container expression exactly once —
the final state equals the state after a single evaluation — and, when the
evaluated container is `Err e`, performs an early return of the fresh
failure container `Result.Err e` of the enclosing function's return type
carrying that payload; otherwise it evaluates to the unwrapped success
payload. -/
theorem try_evaluates_once_and_propagates {T E σ : Type}
    (expr : σ → Result T E × σ) (s : σ) :
    (Result.tryMacroE expr s).2 = (expr s).2
    ∧ (∀ e : E, (expr s).1 = Result.Err e →
        (Result.tryMacroE expr s).1 = Except.error (Result.Err e))
    ∧ (∀ v : T, (expr s).1 = Result.Ok v →
        (Result.tryMacroE expr s).1 = Except.ok v) := by
  refine ⟨?_, ?_, ?_⟩
  · cases h : (expr s).1 <;> simp [Result.tryMacroE, h]
  · intro e he; simp [Result.tryMacroE, he]
  · intro v hv; simp [Result.tryMacroE, hv]

/-- C1 witness: a concrete effectful operand (a counter bumped on each
evaluation) that yields `Err 7`; TRY bumps the counter to exactly 1 and
early-returns `Err 7`. -/
theorem try_evaluates_once_and_propagates_witness :
    (Result.tryMacroE (fun s : Nat => ((Result.Err 7 : Result Nat Nat), s + 1)) 0).2 = 1
    ∧ (Result.tryMacroE (fun s : Nat => ((Result.Err 7 : Result Nat Nat), s + 1)) 0).1
        = Except.error (Result.Err 7) := by
  have h := try_evaluates_once_and_propagates
      (fun s : Nat => ((Result.Err 7 : Result Nat Nat), s + 1)) 0
  exact ⟨h.1, h.2.1 7 rfl⟩

/-- C2: `unwrap` on a failure container aborts the process after emitting
the fixed diagnostic naming the violated contract (the source string
"unwrap called on Result::Err()"), and on a success container returns the
payload without aborting; `expect` is identical with the caller-supplied
message as diagnostic; `unwrap_err` / `expect_err` are the exact mirrors,
aborting on a success container (fixed string
"unwrap_err called on Result::Ok()"). -/
theorem unwrap_abort_contract {T E : Type} (v : T) (e : E) (msg : String) :
    Result.unwrap (Result.Err e : Result T E)
        = AbortOr.abort "unwrap called on Result::Err()"
    ∧ Result.unwrap (Result.Ok v : Result T E) = AbortOr.ret v
    ∧ Result.expect (Result.Err e : Result T E) msg = AbortOr.abort msg
    ∧ Result.expect (Result.Ok v : Result T E) msg = AbortOr.ret v
    ∧ Result.unwrap_err (Result.Ok v : Result T E)
        = AbortOr.abort "unwrap_err called on Result::Ok()"
    ∧ Result.unwrap_err (Result.Err e : Result T E) = AbortOr.ret e
    ∧ Result.expect_err (Result.Ok v : Result T E) msg = AbortOr.abort msg
    ∧ Result.expect_err (Result.Err e : Result T E) msg = AbortOr.ret e :=
  ⟨rfl, rfl, rfl, rfl, rfl, rfl, rfl, rfl⟩

/-- C3 counterexample: in the code, `Result<void, E>` stores a plain,
always-present `E error_` member (no union), and `Ok()` leaves it
default-initialized, so every container — success included — holds an `E`
object. Consequently, at the concrete uninhabited error type `Empty`, no
success-state container can exist at all, refuting the claim that a
success container owns nothing beyond the discriminant and that
constructing `Ok()` creates no `E` object. -/
theorem void_success_cannot_avoid_error_object :
    ¬ ∃ r : ResultVoid Empty, r.is_ok_ = true := by
  rintro ⟨r, -⟩
  exact r.error_.elim

/-- C3 amended: in `Result<void, E>` the failure payload member `error_`
is always present, in the success state as well; constructing `Ok()`
requires `E` to be default-constructible and default-initializes the `E`
member (a default `E` object is created), while `Err e` stores `e`; the
two states are told apart by the discriminant alone. -/
theorem void_success_holds_default_error {E : Type} [Inhabited E] (e : E) :
    (ResultVoid.Ok : ResultVoid E).is_ok_ = true
    ∧ (ResultVoid.Ok : ResultVoid E).error_ = default
    ∧ (ResultVoid.Err e).is_ok_ = false
    ∧ (ResultVoid.Err e).error_ = e := ⟨rfl, rfl, rfl, rfl⟩

/-- C3 amended witness: at `E = Nat`, `Ok()`'s error slot holds the
default-initialized value 0 and `Err 5`'s holds 5. -/
theorem void_success_holds_default_error_witness :
    (ResultVoid.Ok : ResultVoid Nat).error_ = 0
    ∧ (ResultVoid.Err (5 : Nat)).error_ = 5 := by
  have h := void_success_holds_default_error (5 : Nat)
  exact ⟨h.2.1, h.2.2.2⟩

/-- C4: `and_then` is monadic bind: `Ok(v).and_then(f) = f(v)`;
`Err(e).and_then(f) = Err(e)` retyped, and in the effectful embedding the
continuation is never invoked on the failure path (the state — e.g. a
side-effect counter — is untouched); `and_then(Ok)` is a no-op on every
container. -/
theorem and_then_is_bind {T E U : Type} (v : T) (e : E) (f : T → Result U E)
    (r : Result T E) {σ : Type} (g : T → σ → Result U E × σ) (s : σ) :
    Result.and_then (Result.Ok v : Result T E) f = f v
    ∧ Result.and_then (Result.Err e : Result T E) f = Result.Err e
    ∧ Result.and_then r Result.Ok = r
    ∧ Result.and_thenE (Result.Err e : Result T E) g s = (Result.Err e, s) := by
  refine ⟨rfl, rfl, ?_, rfl⟩
  cases r <;> rfl

/-- C5: `map` obeys the functor contract: `Ok(v).map(f) = Ok(f(v))`;
`Err(e).map(f) = Err(e)` with the failure payload unchanged, retyped;
`map(identity)` is a no-op; and `r.map(f).map(g) = r.map(g ∘ f)` for every
container `r`. -/
theorem map_is_functorial {T E U V : Type} (v : T) (e : E) (f : T → U)
    (g : U → V) (r : Result T E) :
    Result.map (Result.Ok v : Result T E) f = Result.Ok (f v)
    ∧ Result.map (Result.Err e : Result T E) f = Result.Err e
    ∧ Result.map r id = r
    ∧ Result.map (Result.map r f) g = Result.map r (g ∘ f) := by
  refine ⟨rfl, rfl, ?_, ?_⟩ <;> cases r <;> rfl

/-- C6: defaulted extraction never aborts: `Ok(v).unwrap_or(d) = v` and
`Err(e).unwrap_or(d) = d`; `Ok(v).unwrap_or_else(supplier) = v` with the
supplier never invoked (state untouched), while `Err(e).unwrap_or_else(supplier)`
runs the zero-argument supplier exactly once and returns its result;
`Ok(v).unwrap_or_default() = v` and `Err(e).unwrap_or_default()` is the
default-initialized `T`. -/
theorem unwrap_or_family {T E : Type} [Inhabited T] (v d : T) (e : E)
    {σ : Type} (f : σ → T × σ) (s : σ) :
    Result.unwrap_or (Result.Ok v : Result T E) d = v
    ∧ Result.unwrap_or (Result.Err e : Result T E) d = d
    ∧ Result.unwrap_or_elseE (Result.Ok v : Result T E) f s = (v, s)
    ∧ Result.unwrap_or_elseE (Result.Err e : Result T E) f s = f s
    ∧ Result.unwrap_or_default (Result.Ok v : Result T E) = v
    ∧ Result.unwrap_or_default (Result.Err e : Result T E) = default :=
  ⟨rfl, rfl, rfl, rfl, rfl, rfl⟩

/-- C6 witness: at `T = E = Nat` with a counting supplier, the failure
path yields the supplier's value with the counter bumped exactly once, and
`unwrap_or_default` yields 0. -/
theorem unwrap_or_family_witness :
    Result.unwrap_or_default (Result.Err 3 : Result Nat Nat) = 0
    ∧ Result.unwrap_or_elseE (Result.Err 3 : Result Nat Nat)
        (fun s => (7, s + 1)) 0 = (7, 1) := by
  have h := unwrap_or_family (1 : Nat) 2 (3 : Nat)
      (fun s : Nat => ((7 : Nat), s + 1)) 0
  exact ⟨h.2.2.2.2.2, h.2.2.2.1⟩

/-- C7: `flatten` on a nested container: `Ok(Ok(v)).flatten() = Ok(v)`;
`Ok(Err(e)).flatten() = Err(e)`; `Err(e2).flatten() = Err(e2)` retyped to
the inner success type. -/
theorem flatten_collapses_nesting {U E : Type} (v : U) (e e2 : E) :
    Result.flatten (Result.Ok (Result.Ok v) : Result (Result U E) E)
        = Result.Ok v
    ∧ Result.flatten (Result.Ok (Result.Err e) : Result (Result U E) E)
        = Result.Err e
    ∧ Result.flatten (Result.Err e2 : Result (Result U E) E)
        = Result.Err e2 :=
  ⟨rfl, rfl, rfl⟩

/-- C8 counterexample: the source `or_else` invokes its callable with no
arguments (`op()`), so the fallback container cannot depend on the failure
payload; no adaptation of an error-consuming fallback `f` can make
`Err(e).or_else(...)` equal `f` applied to the payload `e`. Refuted with
`f = Ok` at the concrete payloads 0 and 1, which would force the single
container `adapt f ()` to equal both `Ok 0` and `Ok 1`. -/
theorem or_else_cannot_see_error_payload :
    ¬ ∃ adapt : (Nat → Result Nat Nat) → (Unit → Result Nat Nat),
        ∀ (e : Nat) (f : Nat → Result Nat Nat),
          Result.or_else (Result.Err e) (adapt f) = f e := by
  rintro ⟨adapt, h⟩
  have h0 := h 0 (Result.Ok : Nat → Result Nat Nat)
  have h1 := h 1 (Result.Ok : Nat → Result Nat Nat)
  simp [Result.or_else, Result.is_ok] at h0 h1
  exact absurd (h0.symm.trans h1) (by simp)

/-- C8 amended: for operand containers of identical type,
`Ok(v).and_(other) = other` and `Err(e).and_(other) = Err(e)`;
`Err(e).or_(other) = other` and `Ok(v).or_(other) = Ok(v)`; `or_else`
takes a zero-argument callable (it is not passed the failure payload):
`Ok(v).or_else(f) = Ok(v)`, and `Err(e).or_else(f)` invokes `f` with no
arguments and returns the container it produces. -/
theorem and_or_fallback_combinators {T E : Type} (v : T) (e : E)
    (other : Result T E) (f : Unit → Result T E) :
    Result.and_ (Result.Ok v : Result T E) other = other
    ∧ Result.and_ (Result.Err e : Result T E) other = Result.Err e
    ∧ Result.or_ (Result.Err e : Result T E) other = other
    ∧ Result.or_ (Result.Ok v : Result T E) other = Result.Ok v
    ∧ Result.or_else (Result.Ok v : Result T E) f = Result.Ok v
    ∧ Result.or_else (Result.Err e : Result T E) f = f () :=
  ⟨rfl, rfl, rfl, rfl, rfl, rfl⟩

/-- C9: every copy construction, move construction and (non-aliased)
assignment — general form and no-payload-success form alike — yields a
container with the same discriminant as its source; for copies the
destination's payload equals the source's (for the no-payload-success
form this concerns the failure payload, which exists as the live state
exactly when the source is a failure). In the value embedding the copied
payload is a distinct value, hence independently owned. -/
theorem copy_move_preserve_discriminant {T E : Type} [Inhabited E]
    (r s t : Result T E) (sv tv : ResultVoid E) :
    Result.copyCtor r = r
    ∧ (Result.moveCtor r).is_ok = r.is_ok
    ∧ (Result.copyAssign t s false).1 = s
    ∧ ((Result.moveAssign t s false).1).is_ok = s.is_ok
    ∧ (ResultVoid.copyCtor sv).is_ok_ = sv.is_ok_
    ∧ (sv.is_ok_ = false → (ResultVoid.copyCtor sv).error_ = sv.error_)
    ∧ (ResultVoid.moveCtor sv).is_ok_ = sv.is_ok_
    ∧ (ResultVoid.copyAssign tv sv false).is_ok_ = sv.is_ok_
    ∧ (sv.is_ok_ = false → (ResultVoid.copyAssign tv sv false).error_ = sv.error_)
    ∧ (ResultVoid.moveAssign tv sv false).is_ok_ = sv.is_ok_ := by
  refine ⟨?_, ?_, ?_, ?_, rfl, ?_, rfl, rfl, ?_, rfl⟩
  · cases r <;> rfl
  · cases r <;> rfl
  · cases s <;> rfl
  · cases s <;> rfl
  · intro h; simp [ResultVoid.copyCtor, h]
  · intro h; simp [ResultVoid.copyAssign, h]

/-- C9 witness: concrete copy construction at `Ok 2` and a concrete
non-aliased void-form copy assignment from a failure source carrying 4. -/
theorem copy_move_preserve_discriminant_witness :
    Result.copyCtor (Result.Ok 2 : Result Nat Nat) = Result.Ok 2
    ∧ (ResultVoid.copyAssign (⟨9, true⟩ : ResultVoid Nat)
        ⟨4, false⟩ false).error_ = 4 := by
  have h := copy_move_preserve_discriminant (Result.Ok 2 : Result Nat Nat)
      (Result.Err 1) (Result.Ok 3) (⟨4, false⟩ : ResultVoid Nat) ⟨9, true⟩
  exact ⟨h.1, h.2.2.2.2.2.2.2.2.1 rfl⟩

/-- C10: self-assignment of a general-form container (copy or move
assignment with the source aliasing the target, the guard
`this != &other` failing) leaves the container completely unchanged —
same discriminant and payload — and performs zero destroy/reconstruct
cycles on the live payload. -/
theorem self_assignment_is_noop {T E : Type} (r : Result T E) :
    Result.copyAssign r r true = (r, 0)
    ∧ Result.moveAssign r r true = (r, 0) :=
  ⟨rfl, rfl⟩

end CppResult
